import Mathlib

/-!
Verification of the nexus-assistant-app repository.

The repository wires a persona-configured chat session to two presentation
shells (a REPL in nexus_chat.py and a Streamlit page in nexus_app.py) and
offers the model one local tool, read_project_document, which resolves a
filename against the fixed base directory C:\nexus with Windows path-join
semantics, guards the result with a string-prefix containment check, and
reads the file.

This file embeds, from the source:
  - the Windows os.path.join / os.path.splitdrive semantics used to resolve
    the filename (functions splitdrive, ntjoin), restricted to the two-path
    call the source makes;
  - read_project_document over an abstract filesystem oracle, in two forms:
    the returned string, and an exception-explicit form recording whether
    any exception escapes;
  - the function-calling loop of both variants, driven by a scripted list
    of model responses;
  - the REPL iteration of nexus_chat.py and the message-history handling of
    nexus_app.py;
  - the startup credential check of both variants.
-/

namespace Nexus

/-- True of a character that ntpath treats as a path separator
(both the separator and the alternative separator). -/
def isSep (c : Char) : Bool := c = '\\' || c = '/'

/-- True when a list of characters is empty or does not begin with a
separator. Mirrors the check normp with index 2 against the separator in
ntpath.splitdrive. -/
def headNotSep : List Char → Bool
  | [] => true
  | c :: _ => !isSep c

/-- Index of the first separator at position start or later, as
str.find with a start argument returns it (none models -1). -/
def findSepIdx (p : List Char) (start : Nat) : Option Nat :=
  match (p.drop start).findIdx? isSep with
  | some k => some (start + k)
  | none => none

/-- The UNC branch of ntpath.splitdrive: locate the separator ending the
host component and the separator ending the share component. -/
def splitdriveUNC (p : List Char) : List Char × List Char :=
  match findSepIdx p 2 with
  | none => ([], p)
  | some index =>
    match findSepIdx p (index + 1) with
    | none => (p, [])
    | some index2 =>
      if index2 = index + 1 then ([], p)
      else (p.take index2, p.drop index2)

/-- ntpath.splitdrive: split a Windows path into a drive (either a
drive-letter pair such as C: or a UNC host-and-share component) and the
rest. -/
def splitdrive (p : List Char) : List Char × List Char :=
  match p with
  | c1 :: c2 :: rest =>
    if isSep c1 && isSep c2 && headNotSep rest then splitdriveUNC (c1 :: c2 :: rest)
    else if c2 = ':' then ([c1, c2], rest)
    else ([], c1 :: c2 :: rest)
  | q => ([], q)

/-- str.lower on the characters of a path, as ntpath.join uses it to
compare drives. -/
def lowerL (l : List Char) : List Char := l.map Char.toLower

/-- The relative-append step of ntpath.join: add a separator after the
accumulated path unless it is empty or already ends in one, then append. -/
def relJoin (rp pp : List Char) : List Char :=
  if rp.isEmpty || isSep (rp.getLastD '\\') then rp ++ pp
  else rp ++ '\\' :: pp

/-- The branches of ntpath.join taken when the second path is not rooted:
a different drive replaces the accumulated path outright, the same drive
(possibly in different case) keeps it and appends relatively. -/
def ntjoinRest (rd rp pd pp : List Char) : List Char × List Char :=
  if pd ≠ [] ∧ pd ≠ rd then
    if lowerL pd ≠ lowerL rd then (pd, pp)
    else (pd, relJoin rp pp)
  else (rd, relJoin rp pp)

/-- The per-component body of ntpath.join: a rooted second path replaces
the accumulated path, keeping the accumulated drive only when the second
path has none. -/
def ntjoinCore (rd rp pd pp : List Char) : List Char × List Char :=
  match pp with
  | ph :: pt =>
    if isSep ph then ((if pd ≠ [] ∨ rd = [] then pd else rd), ph :: pt)
    else ntjoinRest rd rp pd (ph :: pt)
  | [] => ntjoinRest rd rp pd []

/-- The final assembly of ntpath.join: insert a separator between a UNC
drive and a non-rooted path, otherwise concatenate drive and path. -/
def ntjoinFinish (rd rp : List Char) : List Char :=
  match rp with
  | rh :: rt =>
    if isSep rh = false ∧ rd ≠ [] ∧ rd.getLastD ':' ≠ ':' then rd ++ '\\' :: rh :: rt
    else rd ++ rh :: rt
  | [] => rd

/-- The join of two already-split paths: the per-component body followed
by the final assembly. -/
def ntjoinPairs (r q : List Char × List Char) : List Char :=
  ntjoinFinish (ntjoinCore r.1 r.2 q.1 q.2).1 (ntjoinCore r.1 r.2 q.1 q.2).2

/-- ntpath.join restricted to two arguments, the call shape
os.path.join(base_path, filename) the source makes. -/
def ntjoin (path p : List Char) : List Char :=
  ntjoinPairs (splitdrive path) (splitdrive p)

/-- os.path.join on strings, under the Windows semantics presumed by the
fixed base directory C:\nexus of the source. -/
def ntjoinS (a b : String) : String := String.mk (ntjoin a.data b.data)

/-- str.startswith: the second string is a character-for-character prefix
of the first. -/
def strStartsWith (s pre : String) : Bool := pre.data.isPrefixOf s.data

/-- What opening and reading a path can yield: the text of the file, a
FileNotFoundError, or any other exception with its message. This is the
filesystem oracle the embedding is parametric in. -/
inductive ReadOutcome where
  | success (content : String)
  | fileNotFound
  | otherError (msg : String)
deriving DecidableEq

/-- The fixed base directory of read_project_document. -/
def base_path : String := "C:\\nexus"

/-- A single-quote character, written by code so the quoted filename in
the not-found message matches the f-string of the source exactly. -/
def squote : String := String.mk [Char.ofNat 39]

/-- The access-denied message of read_project_document. -/
def accessDeniedMsg : String :=
  "Error: Access denied. Cannot read file outside " ++ base_path ++ "."

/-- The not-found message of read_project_document, quoting the requested
filename. -/
def notFoundMsg (filename : String) : String :=
  "File " ++ squote ++ filename ++ squote ++ " not found in the project directory."

/-- The generic I/O failure message of read_project_document. -/
def readErrorMsg (e : String) : String :=
  "An error occurred while reading the file: " ++ e

/-- The try/except block of read_project_document: open and read the
joined path, mapping FileNotFoundError and any other exception to message
strings. -/
def readBody (fs : String → ReadOutcome) (full_path filename : String) : String :=
  match fs full_path with
  | .success content => content
  | .fileNotFound => notFoundMsg filename
  | .otherError e => readErrorMsg e

/-- read_project_document from nexus_chat.py (the copy in nexus_app.py is
identical): join the filename onto the base directory, refuse when the
joined string does not start with the base directory string, otherwise
open and read. -/
def read_project_document (fs : String → ReadOutcome) (filename : String) : String :=
  let full_path := ntjoinS base_path filename
  if strStartsWith full_path base_path = false then accessDeniedMsg
  else readBody fs full_path filename

/-- The exceptions the body of read_project_document distinguishes:
FileNotFoundError, caught first, and every other exception. -/
inductive PyExc where
  | fileNotFoundError
  | otherExc (msg : String)
deriving DecidableEq

/-- The open-and-read step with exceptions explicit: error means the call
raised. -/
def openRead (fs : String → ReadOutcome) (path : String) : Except PyExc String :=
  match fs path with
  | .success c => .ok c
  | .fileNotFound => .error .fileNotFoundError
  | .otherError m => .error (.otherExc m)

/-- read_project_document with propagation of exceptions made explicit: a
result of error would mean an exception escaped to the caller. Each
except clause of the source converts its exception into an ordinary
returned string. -/
def read_project_document_run (fs : String → ReadOutcome) (filename : String) :
    Except PyExc String :=
  let full_path := ntjoinS base_path filename
  if strStartsWith full_path base_path = false then .ok accessDeniedMsg
  else
    match openRead fs full_path with
    | .ok content => .ok content
    | .error .fileNotFoundError => .ok (notFoundMsg filename)
    | .error (.otherExc e) => .ok (readErrorMsg e)

/-- True when the second character of a filename is a colon, so that
ntpath.splitdrive reads a drive letter off it. -/
def hasDriveLetter : List Char → Bool
  | _ :: c2 :: _ => c2 = ':'
  | _ => false

/-- True when a filename begins with a path separator. -/
def startsWithSep : List Char → Bool
  | c :: _ => isSep c
  | [] => false

/-- A relative filename: no leading separator and no drive letter, so
that joining it onto the base directory extends the base directory. -/
def is_relative_filename (filename : String) : Bool :=
  !startsWithSep filename.data && !hasDriveLetter filename.data

theorem splitdrive_relative (p : List Char)
    (hsep : startsWithSep p = false) (hdrive : hasDriveLetter p = false) :
    splitdrive p = ([], p) := by
  cases p with
  | nil => rfl
  | cons c1 t =>
    cases t with
    | nil => rfl
    | cons c2 rest =>
      simp only [startsWithSep] at hsep
      replace hdrive : ¬c2 = ':' := by simpa [hasDriveLetter] using hdrive
      simp [splitdrive, hsep, hdrive]

theorem ntjoin_relative (p : List Char)
    (hsep : startsWithSep p = false) (hdrive : hasDriveLetter p = false) :
    ntjoin base_path.data p = base_path.data ++ '\\' :: p := by
  have hq : splitdrive p = ([], p) := splitdrive_relative p hsep hdrive
  have hr : splitdrive base_path.data =
      (['C', ':'], ['\\', 'n', 'e', 'x', 'u', 's']) := by decide
  show ntjoinPairs (splitdrive base_path.data) (splitdrive p) = _
  rw [hq, hr]
  cases p with
  | nil => decide
  | cons c1 t =>
    have hc1 : isSep c1 = false := by
      simpa [startsWithSep] using hsep
    have hc1' : ¬(c1 = '\\' ∨ c1 = '/') := by
      simpa [isSep] using hc1
    have hs : isSep 's' = false := by decide
    simp [ntjoinPairs, ntjoinCore, hc1, hc1', hs, ntjoinRest, relJoin,
      ntjoinFinish, base_path]

theorem strStartsWith_append (pre rest : String) :
    strStartsWith (String.mk (pre.data ++ rest.data)) pre = true := by
  simp [strStartsWith, List.isPrefixOf_iff_prefix]

/-- A tool invocation requested by the model: a function name and its
keyword arguments. -/
structure ToolCall where
  name : String
  args : List (String × String)
deriving DecidableEq

/-- One model response: the tool calls it carries (the while condition
tests this list for emptiness) and its text. -/
structure ModelResponse where
  function_calls : List ToolCall
  text : String
deriving DecidableEq

/-- A tool result sent back to the model, as built by
types.Part.from_tool_function_result(name, result). -/
structure ToolResult where
  name : String
  result : String
deriving DecidableEq

/-- Keyword-argument lookup, as the ** expansion binds the filename
parameter of read_project_document. -/
def lookupArg (args : List (String × String)) (key : String) : String :=
  (args.lookup key).getD ""

/-- One iteration of the for-loop over function calls in nexus_chat.py:
the known tool name runs read_project_document, any other name yields the
explicit unknown-tool error result. -/
def exec_call_chat (fs : String → ReadOutcome) (call : ToolCall) : ToolResult :=
  if call.name = "read_project_document" then
    { name := call.name,
      result := read_project_document fs (lookupArg call.args "filename") }
  else
    { name := call.name, result := "Error: Unknown tool " ++ call.name }

/-- The batch of tool results nexus_chat.py accumulates for one response:
one result per call, in order. -/
def exec_calls_chat (fs : String → ReadOutcome) (calls : List ToolCall) :
    List ToolResult :=
  calls.map (exec_call_chat fs)

/-- The batch of tool results nexus_app.py accumulates for one response:
its for-loop has an if with no else, so a call whose name is not
read_project_document appends nothing. -/
def exec_calls_app (fs : String → ReadOutcome) (calls : List ToolCall) :
    List ToolResult :=
  calls.filterMap fun call =>
    if call.name = "read_project_document" then
      some { name := call.name,
             result := read_project_document fs (lookupArg call.args "filename") }
    else none

/-- The function-calling while-loop of both variants, driven by the
scripted list of responses the chat session will return: the first list
element answers the user message, each later element answers the batch of
tool results sent before it. Returns the final response text and the
batches sent, or none when the script is exhausted while the loop still
expects a response. -/
def run_loop (exec : List ToolCall → List ToolResult) :
    List ModelResponse → Option (String × List (List ToolResult))
  | [] => none
  | r :: rest =>
    match r.function_calls with
    | [] => some (r.text, [])
    | c :: cs =>
      match run_loop exec rest with
      | some (t, bs) => some (t, exec (c :: cs) :: bs)
      | none => none

theorem run_loop_script (exec : List ToolCall → List ToolResult)
    (rs : List ModelResponse) (final : ModelResponse)
    (hall : ∀ r ∈ rs, r.function_calls ≠ [])
    (hfin : final.function_calls = []) :
    run_loop exec (rs ++ [final]) =
      some (final.text, rs.map fun r => exec r.function_calls) := by
  induction rs with
  | nil => simp [run_loop, hfin]
  | cons r rest ih =>
    have hr : r.function_calls ≠ [] := hall r (by simp)
    have hrest : ∀ q ∈ rest, q.function_calls ≠ [] := by
      intro q hq
      exact hall q (by simp [hq])
    cases hcalls : r.function_calls with
    | nil => exact absurd hcalls hr
    | cons c cs =>
      simp [run_loop, hcalls, ih hrest]

theorem exec_calls_app_filter (fs : String → ReadOutcome)
    (calls : List ToolCall) :
    exec_calls_app fs calls =
      exec_calls_chat fs (calls.filter fun c => c.name = "read_project_document") := by
  induction calls with
  | nil => rfl
  | cons c cs ih =>
    by_cases h : c.name = "read_project_document" <;>
      simp [exec_calls_app, exec_calls_chat, List.filter, h, exec_call_chat] <;>
      simpa [exec_calls_app, exec_calls_chat] using ih

/-- str.lower, character by character. -/
def pyLower (s : String) : String := String.mk (s.data.map Char.toLower)

/-- The whitespace characters str.strip() removes (space, tab, newline,
carriage return, vertical tab, form feed). -/
def pyIsSpace (c : Char) : Bool :=
  c = ' ' || c = '\t' || c = '\n' || c = '\r' ||
    c = Char.ofNat 11 || c = Char.ofNat 12

/-- str.strip(): drop whitespace from both ends. -/
def pyStrip (s : String) : String :=
  String.mk (((s.data.dropWhile pyIsSpace).reverse.dropWhile pyIsSpace).reverse)

/-- What one pass of the while-loop body of nexus_chat.py does with a
line of input. -/
inductive ReplStep where
  | terminated
  | reprompted
  | printed (line : String)
  | modelPending
deriving DecidableEq

/-- One iteration of the interactive loop of nexus_chat.py: break when
the lowercased input is the word exit or the word quit, continue when the
input strips to nothing, otherwise send the message, drive the
function-calling loop over the scripted responses, and print the stripped
final text. modelPending records a script exhausted mid-loop. -/
def repl_iteration (fs : String → ReadOutcome) (script : List ModelResponse)
    (user_input : String) : ReplStep :=
  if pyLower user_input = "exit" ∨ pyLower user_input = "quit" then .terminated
  else if pyStrip user_input = "" then .reprompted
  else
    match run_loop (exec_calls_chat fs) script with
    | some (t, _) => .printed ("Nexus: " ++ pyStrip t)
    | none => .modelPending

/-- A message of the Streamlit history: a role string and a content
string. -/
structure ChatMessage where
  role : String
  content : String
deriving DecidableEq

/-- The history nexus_app.py stores when the session state is first
created: a single greeting from the assistant role. -/
def initial_messages : List ChatMessage :=
  [{ role := "Nexus", content := "Hello Meg. Nexus is ready for your command." }]

/-- One handled user input in nexus_app.py: append the user message, run
the function-calling loop, and append the stripped final text as the
assistant message. When the script is exhausted mid-loop no assistant
message is appended (the turn did not complete). -/
def app_turn (fs : String → ReadOutcome) (script : List ModelResponse)
    (history : List ChatMessage) (user_input : String) : List ChatMessage :=
  let h1 := history ++ [{ role := "Meg", content := user_input }]
  match run_loop (exec_calls_app fs) script with
  | some (t, _) => h1 ++ [{ role := "Nexus", content := pyStrip t }]
  | none => h1

/-- A sequence of handled user inputs in nexus_app.py, each with the
scripted responses for its turn, folded over the stored history. -/
def app_session (fs : String → ReadOutcome) (history : List ChatMessage) :
    List (String × List ModelResponse) → List ChatMessage
  | [] => history
  | (u, s) :: rest => app_session fs (app_turn fs s history u) rest

/-- The two messages one completed turn contributes, and the single
message of a turn whose loop did not complete. -/
def turnMsgs (fs : String → ReadOutcome) (p : String × List ModelResponse) :
    List ChatMessage :=
  { role := "Meg", content := p.1 } ::
    (match run_loop (exec_calls_app fs) p.2 with
     | some (t, _) => [{ role := "Nexus", content := pyStrip t }]
     | none => [])

theorem app_turn_as_append (fs : String → ReadOutcome)
    (script : List ModelResponse) (history : List ChatMessage) (u : String) :
    app_turn fs script history u = history ++ turnMsgs fs (u, script) := by
  unfold app_turn turnMsgs
  cases run_loop (exec_calls_app fs) script with
  | none => simp
  | some p => cases p with
    | mk t bs => simp

theorem app_session_as_append (fs : String → ReadOutcome)
    (turns : List (String × List ModelResponse)) (history : List ChatMessage) :
    app_session fs history turns = history ++ turns.flatMap (turnMsgs fs) := by
  induction turns generalizing history with
  | nil => simp [app_session]
  | cons p rest ih =>
    cases p with
    | mk u s =>
      simp [app_session, ih, app_turn_as_append, List.flatMap_cons,
        List.append_assoc]

/-- What the startup of either variant reports and whether it goes on to
create a chat session: the messages shown and a flag that is true only
when the client was constructed. The argument models the outcome of
genai.Client(), whose construction fails when the API key is absent. -/
structure StartupTrace where
  errors : List String
  proceedsToChat : Bool
deriving DecidableEq

/-- The try/except around genai.Client() in nexus_chat.py: on failure,
print one error line and exit before any chat session exists. -/
def chat_startup (clientInit : Except String Unit) : StartupTrace :=
  match clientInit with
  | .error _ =>
    { errors := ["Error: GEMINI_API_KEY environment variable not set."],
      proceedsToChat := false }
  | .ok _ => { errors := [], proceedsToChat := true }

/-- The try/except around genai.Client() in nexus_app.py: on failure,
show one st.error message and st.stop() before the chat session branch
runs. -/
def app_startup (clientInit : Except String Unit) : StartupTrace :=
  match clientInit with
  | .error _ =>
    { errors := ["Error: GEMINI_API_KEY environment variable not set. Please set the key."],
      proceedsToChat := false }
  | .ok _ => { errors := [], proceedsToChat := true }

/-- Split the non-drive part of a path on separators. -/
def splitSegs : List Char → List (List Char)
  | [] => [[]]
  | c :: t =>
    if isSep c then [] :: splitSegs t
    else
      match splitSegs t with
      | s :: rest => (c :: s) :: rest
      | [] => [[c]]

/-- Collapse empty, single-dot and double-dot components the way the
operating system resolves them when a rooted path is opened: a double dot
removes the component before it (and is dropped at the root). -/
def normSegs : List (List Char) → List (List Char) → List (List Char)
  | acc, [] => acc.reverse
  | acc, s :: rest =>
    if s = [] ∨ s = ['.'] then normSegs acc rest
    else if s = ['.', '.'] then normSegs acc.tail rest
    else normSegs (s :: acc) rest

/-- Where a rooted Windows path actually points once the operating system
resolves dot and double-dot components: the drive followed by the
collapsed components. Used to state which file a joined path reaches. -/
def resolvePath (p : String) : String :=
  String.mk ((splitdrive p.data).1 ++ '\\' ::
    List.intercalate ['\\'] (normSegs [] (splitSegs (splitdrive p.data).2)))

/-- A filesystem with no files: every open raises FileNotFoundError. -/
def fsEmpty : String → ReadOutcome := fun _ => .fileNotFound

/-- A filesystem holding one file, notes.txt with content hello, under
the base directory. -/
def fsNotes : String → ReadOutcome := fun p =>
  if p = "C:\\nexus\\notes.txt" then .success "hello" else .fileNotFound

/-- A filesystem in which opening the traversal path
C:\nexus\..\secret.txt succeeds: the operating system resolves it to
C:\secret.txt, a file outside the base directory, whose content is the
secret text. -/
def fsSecret : String → ReadOutcome := fun p =>
  if p = "C:\\nexus\\..\\secret.txt" then .success "TOP SECRET PLANS"
  else .fileNotFound

theorem check_passes_of_relative (filename : String)
    (hrel : is_relative_filename filename = true) :
    ntjoinS base_path filename =
      String.mk (base_path.data ++ '\\' :: filename.data) ∧
    strStartsWith (ntjoinS base_path filename) base_path = true := by
  have hh : startsWithSep filename.data = false ∧
      hasDriveLetter filename.data = false := by
    simpa [is_relative_filename] using hrel
  have hsep : startsWithSep filename.data = false := hh.1
  have hdrive : hasDriveLetter filename.data = false := hh.2
  have hjoin : ntjoin base_path.data filename.data =
      base_path.data ++ '\\' :: filename.data :=
    ntjoin_relative filename.data hsep hdrive
  refine ⟨?_, ?_⟩
  · show String.mk (ntjoin base_path.data filename.data) = _
    rw [hjoin]
  · show strStartsWith (String.mk (ntjoin base_path.data filename.data)) base_path = true
    rw [hjoin]
    have : base_path.data ++ '\\' :: filename.data =
        base_path.data ++ (String.mk ('\\' :: filename.data)).data := rfl
    rw [this]
    exact strStartsWith_append base_path (String.mk ('\\' :: filename.data))

/-- C10: for every relative filename - one with no drive letter and no
leading separator - joining it onto the base directory extends the base
directory string, so the containment check passes and
read_project_document takes the read branch, never the access-denied
branch; this covers filenames with double-dot components. Conversely the
access-denied branch is taken only when the join has discarded the base
path, which requires a non-relative filename. -/
theorem C10_relative_check_always_passes (filename : String) :
    (is_relative_filename filename = true →
      ntjoinS base_path filename =
        String.mk (base_path.data ++ '\\' :: filename.data) ∧
      strStartsWith (ntjoinS base_path filename) base_path = true ∧
      ∀ fs, read_project_document fs filename =
        readBody fs (ntjoinS base_path filename) filename) ∧
    (strStartsWith (ntjoinS base_path filename) base_path = false →
      is_relative_filename filename = false) := by
  constructor
  · intro hrel
    obtain ⟨hjoin, hcheck⟩ := check_passes_of_relative filename hrel
    refine ⟨hjoin, hcheck, ?_⟩
    intro fs
    simp [read_project_document, hcheck]
  · intro hfail
    by_contra hrel
    rw [Bool.not_eq_false] at hrel
    obtain ⟨_, hcheck⟩ := check_passes_of_relative filename hrel
    rw [hcheck] at hfail
    exact Bool.noConfusion hfail

theorem C10_witness :
    ntjoinS base_path "..\\secret.txt" =
      String.mk (base_path.data ++ '\\' :: ("..\\secret.txt").data) ∧
    strStartsWith (ntjoinS base_path "..\\secret.txt") base_path = true ∧
    ∀ fs, read_project_document fs "..\\secret.txt" =
      readBody fs (ntjoinS base_path "..\\secret.txt") "..\\secret.txt" :=
  (C10_relative_check_always_passes "..\\secret.txt").1 (by decide)

/-- C1: the claim fails on the code and the spec states the intended
behaviour, so this is a defect of the code: the filename ..\secret.txt
resolves to C:\secret.txt, outside the base directory, yet the joined
string keeps the base directory as a string prefix, the containment check
passes, and read_project_document returns the contents of the outside
file instead of the access-denied error. -/
theorem C1_traversal_escapes_containment :
    strStartsWith (ntjoinS base_path "..\\secret.txt") base_path = true ∧
    resolvePath (ntjoinS base_path "..\\secret.txt") = "C:\\secret.txt" ∧
    strStartsWith (resolvePath (ntjoinS base_path "..\\secret.txt"))
      base_path = false ∧
    read_project_document fsSecret "..\\secret.txt" = "TOP SECRET PLANS" ∧
    read_project_document fsSecret "..\\secret.txt" ≠ accessDeniedMsg := by
  refine ⟨by decide, by decide, by decide, by decide, by decide⟩

/-- C4: a filename that names an existing readable file under the base
directory - a relative filename whose joined path the filesystem resolves
to text content - makes read_project_document return exactly that
content. -/
theorem C4_existing_file_returns_content (fs : String → ReadOutcome)
    (filename content : String)
    (hrel : is_relative_filename filename = true)
    (hfile : fs (ntjoinS base_path filename) = .success content) :
    read_project_document fs filename = content := by
  obtain ⟨_, hcheck⟩ := check_passes_of_relative filename hrel
  simp [read_project_document, hcheck, readBody, hfile]

theorem C4_witness : read_project_document fsNotes "notes.txt" = "hello" :=
  C4_existing_file_returns_content fsNotes "notes.txt" "hello"
    (by decide) (by decide)

/-- C7: a filename that passes the containment check but whose joined
path raises FileNotFoundError makes read_project_document return the
not-found message, and that message contains the requested filename. -/
theorem C7_missing_file_not_found (fs : String → ReadOutcome)
    (filename : String)
    (hin : strStartsWith (ntjoinS base_path filename) base_path = true)
    (hmiss : fs (ntjoinS base_path filename) = .fileNotFound) :
    read_project_document fs filename = notFoundMsg filename ∧
    ∃ pre post, (notFoundMsg filename).data =
      pre ++ filename.data ++ post := by
  constructor
  · simp [read_project_document, hin, readBody, hmiss]
  · exact ⟨("File " ++ squote).data,
      (squote ++ " not found in the project directory.").data, by
        simp [notFoundMsg]⟩

theorem C7_witness :
    read_project_document fsEmpty "missing.txt" = notFoundMsg "missing.txt" ∧
    ∃ pre post, (notFoundMsg "missing.txt").data =
      pre ++ ("missing.txt").data ++ post :=
  C7_missing_file_not_found fsEmpty "missing.txt" (by decide) (by decide)

/-- C6: for every filename and every behaviour of the filesystem,
read_project_document returns a string and no exception escapes to the
caller: the exception-explicit form always yields ok with the same
string, and the string is either the file contents, the access-denied
message, the not-found message, or the generic I/O failure message. -/
theorem C6_all_failures_returned_as_text (fs : String → ReadOutcome)
    (filename : String) :
    read_project_document_run fs filename =
      Except.ok (read_project_document fs filename) ∧
    ((strStartsWith (ntjoinS base_path filename) base_path = false ∧
        read_project_document fs filename = accessDeniedMsg) ∨
     (∃ c, fs (ntjoinS base_path filename) = .success c ∧
        read_project_document fs filename = c) ∨
     read_project_document fs filename = notFoundMsg filename ∨
     (∃ e, fs (ntjoinS base_path filename) = .otherError e ∧
        read_project_document fs filename = readErrorMsg e)) := by
  unfold read_project_document read_project_document_run openRead readBody
  cases hcheck : strStartsWith (ntjoinS base_path filename) base_path with
  | false =>
    simp [hcheck]
  | true =>
    cases hfs : fs (ntjoinS base_path filename) with
    | success c => simp [hcheck, hfs]
    | fileNotFound => simp [hcheck, hfs]
    | otherError e => simp [hcheck, hfs]

/-- C5: with a scripted response sequence whose first response carries a
single read_project_document call and whose second carries none, the loop
of either variant executes the tool exactly once, sends its result as one
single-batch follow-up message, and ends with the text of the second
response. -/
theorem C5_single_tool_call_round_trip (fs : String → ReadOutcome)
    (fname t1 t2 : String) :
    run_loop (exec_calls_chat fs)
        [{ function_calls := [{ name := "read_project_document",
                                args := [("filename", fname)] }], text := t1 },
         { function_calls := [], text := t2 }] =
      some (t2, [[{ name := "read_project_document",
                    result := read_project_document fs fname }]]) ∧
    run_loop (exec_calls_app fs)
        [{ function_calls := [{ name := "read_project_document",
                                args := [("filename", fname)] }], text := t1 },
         { function_calls := [], text := t2 }] =
      some (t2, [[{ name := "read_project_document",
                    result := read_project_document fs fname }]]) := by
  constructor <;>
    simp [run_loop, exec_calls_chat, exec_calls_app, exec_call_chat,
      lookupArg, List.lookup]

/-- C3 as stated is false for the web variant: its for-loop over function
calls has an if with no else clause, so a call to the unknown name
mystery_tool is skipped outright - the batch it contributes is empty and
the follow-up message carries no error result naming it. -/
theorem C3_counterexample_web_skips_unknown :
    exec_calls_app fsEmpty [{ name := "mystery_tool", args := [] }] = [] ∧
    run_loop (exec_calls_app fsEmpty)
        [{ function_calls := [{ name := "mystery_tool", args := [] }],
           text := "t1" },
         { function_calls := [], text := "done" }] =
      some ("done", [[]]) := by
  constructor <;> rfl

/-- C3 amended: the REPL variant executes the calls of a response in the
order received, producing one result per call with matching names and an
explicit error result naming every unknown tool; the web variant keeps
only the read_project_document calls, skipping unknown names silently;
and for both variants the loop terminates once the scripted sequence
reaches a response with no tool calls, having sent one batch per earlier
response. -/
theorem C3_amended_tool_dispatch (fs : String → ReadOutcome) :
    (∀ calls : List ToolCall,
      (exec_calls_chat fs calls).map ToolResult.name =
        calls.map ToolCall.name ∧
      ∀ call ∈ calls, call.name ≠ "read_project_document" →
        exec_call_chat fs call =
          { name := call.name,
            result := "Error: Unknown tool " ++ call.name }) ∧
    (∀ calls : List ToolCall,
      exec_calls_app fs calls =
        exec_calls_chat fs
          (calls.filter fun c => c.name = "read_project_document")) ∧
    (∀ (rs : List ModelResponse) (final : ModelResponse),
      (∀ r ∈ rs, r.function_calls ≠ []) → final.function_calls = [] →
      run_loop (exec_calls_chat fs) (rs ++ [final]) =
        some (final.text, rs.map fun r => exec_calls_chat fs r.function_calls) ∧
      run_loop (exec_calls_app fs) (rs ++ [final]) =
        some (final.text, rs.map fun r => exec_calls_app fs r.function_calls)) := by
  refine ⟨?_, ?_, ?_⟩
  · intro calls
    constructor
    · induction calls with
      | nil => rfl
      | cons c cs ih =>
        simp only [exec_calls_chat, List.map_cons] at ih ⊢
        rw [ih]
        unfold exec_call_chat
        by_cases h : c.name = "read_project_document" <;> simp [h]
    · intro call _ hname
      simp [exec_call_chat, hname]
  · intro calls
    exact exec_calls_app_filter fs calls
  · intro rs final hall hfin
    exact ⟨run_loop_script _ rs final hall hfin,
      run_loop_script _ rs final hall hfin⟩

theorem C3_witness :
    exec_call_chat fsEmpty { name := "mystery_tool", args := [] } =
      { name := "mystery_tool", result := "Error: Unknown tool mystery_tool" } ∧
    run_loop (exec_calls_chat fsEmpty)
        [{ function_calls := [{ name := "mystery_tool", args := [] }],
           text := "t1" },
         { function_calls := [], text := "done" }] =
      some ("done",
        [exec_calls_chat fsEmpty [{ name := "mystery_tool", args := [] }]]) := by
  have h := C3_amended_tool_dispatch fsEmpty
  refine ⟨?_, ?_⟩
  · have h1 := (h.1 [{ name := "mystery_tool", args := [] }]).2
      { name := "mystery_tool", args := [] } (by simp) (by decide)
    simpa using h1
  · have h3 := h.2.2
      [{ function_calls := [{ name := "mystery_tool", args := [] }],
         text := "t1" }]
      { function_calls := [], text := "done" }
      (by simp) rfl
    simpa using h3.1

/-- C2 as stated is false: the web history is created already holding an
assistant greeting, so after one completed user/assistant turn pair it
holds three entries, not two, and its first entry carries the assistant
role Nexus, not the user role. -/
theorem C2_counterexample_initial_greeting :
    (app_session fsEmpty initial_messages
        [("hi", [{ function_calls := [], text := "ok" }])]).length = 3 ∧
    (app_session fsEmpty initial_messages
        [("hi", [{ function_calls := [], text := "ok" }])]).head?.map
        ChatMessage.role = some "Nexus" := by
  constructor <;> rfl

/-- C2 amended: after N completed user/assistant turn pairs the stored
web history holds exactly 2N+1 entries - the initial assistant greeting
followed by the N pairs in strict alternation, each pair a Meg entry then
a Nexus entry - and the history is only ever appended to: every session
run extends its starting history as a prefix, mutating no entry. -/
theorem C2_amended_history_shape (fs : String → ReadOutcome)
    (turns : List (String × List ModelResponse))
    (hdone : ∀ p ∈ turns, (run_loop (exec_calls_app fs) p.2).isSome = true) :
    (app_session fs initial_messages turns).length = 2 * turns.length + 1 ∧
    (app_session fs initial_messages turns).map ChatMessage.role =
      "Nexus" :: (turns.flatMap fun _ => ["Meg", "Nexus"]) ∧
    ∀ h : List ChatMessage, ∃ tail, app_session fs h turns = h ++ tail := by
  have hroles : (turns.flatMap (turnMsgs fs)).map ChatMessage.role =
      turns.flatMap fun _ => ["Meg", "Nexus"] := by
    induction turns with
    | nil => rfl
    | cons p rest ih =>
      have hp : (run_loop (exec_calls_app fs) p.2).isSome = true :=
        hdone p (by simp)
      have hrest : ∀ q ∈ rest, (run_loop (exec_calls_app fs) q.2).isSome = true := by
        intro q hq
        exact hdone q (by simp [hq])
      have hturn : (turnMsgs fs p).map ChatMessage.role = ["Meg", "Nexus"] := by
        unfold turnMsgs
        cases hr : run_loop (exec_calls_app fs) p.2 with
        | none => rw [hr] at hp; simp at hp
        | some q => cases q with | mk t bs => simp
      simp [List.flatMap_cons, hturn, ih hrest]
  refine ⟨?_, ?_, ?_⟩
  · have hlen : (app_session fs initial_messages turns).length =
        ((app_session fs initial_messages turns).map ChatMessage.role).length := by
      simp
    rw [hlen, app_session_as_append]
    simp only [List.map_append, hroles]
    have : ∀ ts : List (String × List ModelResponse),
        (ts.flatMap fun _ => (["Meg", "Nexus"] : List String)).length =
          2 * ts.length := by
      intro ts
      induction ts with
      | nil => rfl
      | cons q qs ih => simp [List.flatMap_cons, ih, Nat.mul_succ]
    simp [initial_messages, this]
  · rw [app_session_as_append]
    simp [initial_messages, hroles]
  · intro h
    exact ⟨turns.flatMap (turnMsgs fs), app_session_as_append fs turns h⟩

theorem C2_witness :
    (app_session fsEmpty initial_messages
        [("hi", [{ function_calls := [], text := "ok" }]),
         ("more", [{ function_calls := [], text := "fine" }])]).length =
      2 * 2 + 1 ∧
    (app_session fsEmpty initial_messages
        [("hi", [{ function_calls := [], text := "ok" }]),
         ("more", [{ function_calls := [], text := "fine" }])]).map
        ChatMessage.role =
      "Nexus" :: (([("hi", [{ function_calls := [], text := "ok" }]),
         ("more", [{ function_calls := [], text := "fine" }])] :
           List (String × List ModelResponse)).flatMap
        fun _ => ["Meg", "Nexus"]) := by
  have h := C2_amended_history_shape fsEmpty
    [("hi", [{ function_calls := [], text := "ok" }]),
     ("more", [{ function_calls := [], text := "fine" }])]
    (by intro p hp; fin_cases hp <;> rfl)
  exact ⟨h.1, h.2.1⟩

/-- C8: one REPL iteration breaks out of the loop exactly when the
lowercased input equals exit or quit, re-prompts without sending anything
when the remaining input strips to the empty string, and otherwise runs
the function-calling loop and prints the stripped final text prefixed
with the assistant name. -/
theorem C8_repl_iteration_behaviour (fs : String → ReadOutcome)
    (script : List ModelResponse) (input t : String)
    (bs : List (List ToolResult))
    (hloop : run_loop (exec_calls_chat fs) script = some (t, bs)) :
    ((pyLower input = "exit" ∨ pyLower input = "quit") →
      repl_iteration fs script input = .terminated) ∧
    (¬(pyLower input = "exit" ∨ pyLower input = "quit") →
      pyStrip input = "" → repl_iteration fs script input = .reprompted) ∧
    (¬(pyLower input = "exit" ∨ pyLower input = "quit") →
      pyStrip input ≠ "" →
      repl_iteration fs script input =
        .printed ("Nexus: " ++ pyStrip t)) := by
  refine ⟨?_, ?_, ?_⟩
  · intro hword
    simp [repl_iteration, hword]
  · intro hword hempty
    simp [repl_iteration, hword, hempty]
  · intro hword hnotempty
    simp [repl_iteration, hword, hnotempty, hloop]

theorem C8_witness :
    repl_iteration fsEmpty [{ function_calls := [], text := "  Hi  " }]
      "Hello" = .printed ("Nexus: " ++ pyStrip "  Hi  ") :=
  (C8_repl_iteration_behaviour fsEmpty
      [{ function_calls := [], text := "  Hi  " }] "Hello" "  Hi  " []
      rfl).2.2 (by decide) (by decide)

/-- C9: when client construction fails because the API credential is
absent, either variant reports exactly one user-facing error message and
halts without proceeding to create a chat session. -/
theorem C9_missing_credential_is_fatal (e : String) :
    chat_startup (Except.error e) =
      { errors := ["Error: GEMINI_API_KEY environment variable not set."],
        proceedsToChat := false } ∧
    app_startup (Except.error e) =
      { errors :=
          ["Error: GEMINI_API_KEY environment variable not set. Please set the key."],
        proceedsToChat := false } ∧
    (chat_startup (Except.error e)).errors.length = 1 ∧
    (app_startup (Except.error e)).errors.length = 1 ∧
    (chat_startup (Except.error e)).proceedsToChat = false ∧
    (app_startup (Except.error e)).proceedsToChat = false :=
  ⟨rfl, rfl, rfl, rfl, rfl, rfl⟩

end Nexus
